import Mathlib

/-!
Shallow embedding of the beverage-shop ordering backend (src/app.py).

JSON payloads and deserialized item blobs are modelled by the inductive
type `PyValue` (JSON numbers are modelled as integers: every numeric
constant in the program — menu prices, the delivery fee 50 — is an
integer, and no claim depends on fractional arithmetic).  The SQLite
database is modelled by `DB`: the two tables as lists of rows plus
monotone counters for the surrogate primary keys and a logical clock
standing for `datetime.now(TAIWAN_TZ)` (wall-clock time is assumed to be
strictly increasing between requests).  A handler that would raise an
uncaught Python exception (and hence produce an HTTP 500) is modelled by
a `serverError` result; `Except Unit` threads the places where the
Python code can raise.
-/

namespace App

/-- A Python/JSON value as produced by `request.get_json()` or `json.loads`. -/
inductive PyValue where
  | pynone
  | bool (b : Bool)
  | int (n : Int)
  | str (s : String)
  | list (xs : List PyValue)
  | dict (kvs : List (String × PyValue))

mutual

/-- Python `==` restricted to JSON values (structural equality; the
`True == 1` coercion corner is never exercised because every comparison
in the program has a string literal on one side). -/
def pyBeq : PyValue → PyValue → Bool
  | PyValue.pynone, PyValue.pynone => true
  | PyValue.bool a, PyValue.bool b => a == b
  | PyValue.int a, PyValue.int b => a == b
  | PyValue.str a, PyValue.str b => a == b
  | PyValue.list xs, PyValue.list ys => pyBeqList xs ys
  | PyValue.dict xs, PyValue.dict ys => pyBeqKVs xs ys
  | _, _ => false

/-- Elementwise `pyBeq` on lists. -/
def pyBeqList : List PyValue → List PyValue → Bool
  | [], [] => true
  | x :: xs, y :: ys => pyBeq x y && pyBeqList xs ys
  | _, _ => false

/-- Elementwise `pyBeq` on key-value lists. -/
def pyBeqKVs : List (String × PyValue) → List (String × PyValue) → Bool
  | [], [] => true
  | (k1, v1) :: xs, (k2, v2) :: ys => k1 == k2 && pyBeq v1 v2 && pyBeqKVs xs ys
  | _, _ => false

end

mutual

/-- Python `repr` on JSON values (enough of it for string formatting). -/
def pyRepr : PyValue → String
  | PyValue.pynone => "None"
  | PyValue.bool true => "True"
  | PyValue.bool false => "False"
  | PyValue.int n => toString n
  | PyValue.str s => "'" ++ s ++ "'"
  | PyValue.list xs => "[" ++ pyReprElems xs ++ "]"
  | PyValue.dict kvs => "\x7b" ++ pyReprKVs kvs ++ "\x7d"

/-- Comma-separated `pyRepr` of list elements. -/
def pyReprElems : List PyValue → String
  | [] => ""
  | [x] => pyRepr x
  | x :: y :: xs => pyRepr x ++ ", " ++ pyReprElems (y :: xs)

/-- Comma-separated `pyRepr` of dict entries. -/
def pyReprKVs : List (String × PyValue) → String
  | [] => ""
  | [(k, v)] => "'" ++ k ++ "': " ++ pyRepr v
  | (k, v) :: e :: xs => "'" ++ k ++ "': " ++ pyRepr v ++ ", " ++ pyReprKVs (e :: xs)

end

/-- Python `str()` as used by f-string interpolation: identity on
strings, `repr` otherwise. -/
def pyStr : PyValue → String
  | PyValue.str s => s
  | v => pyRepr v

/-- Python dict `.get(k, d)` on a deserialized JSON object. -/
def dGetD (kvs : List (String × PyValue)) (k : String) (d : PyValue) : PyValue :=
  match kvs.lookup k with
  | some v => v
  | none => d

/-- Python dict `.get(k)` (default `None`). -/
def dGet (kvs : List (String × PyValue)) (k : String) : PyValue :=
  dGetD kvs k PyValue.pynone

/-- Whether the character list `sub` occurs contiguously in `l`
(Python `sub in s` on strings). -/
def hasInfixChars : List Char → List Char → Bool
  | sub, [] => sub.isEmpty
  | sub, c :: rest => (c :: rest).take sub.length == sub || hasInfixChars sub rest

/-- Python `in` on a JSON value (`'key' in data`): key membership for
dicts, element membership for lists, substring for strings, and a
`TypeError` (modelled as `Except.error`) for non-container values. -/
def pyContains (v : PyValue) (k : String) : Except Unit Bool :=
  match v with
  | PyValue.dict kvs => Except.ok (kvs.any (fun kv => k == kv.1))
  | PyValue.list xs => Except.ok (xs.any (fun x => pyBeq x (PyValue.str k)))
  | PyValue.str s => Except.ok (hasInfixChars k.toList s.toList)
  | _ => Except.error ()

/-- The exact set of code points removed by Python's default
`str.strip()` — identical to the `str.isspace()` set — as closed ranges
of code points, taken from CPython 3.11's Unicode data (it includes the
ideographic space U+3000, NBSP, NEL, U+1C-U+1F and the U+2000 block). -/
def pySpaceRanges : List (Nat × Nat) :=
  [(0x9, 0xd), (0x1c, 0x20), (0x85, 0x85), (0xa0, 0xa0),
   (0x1680, 0x1680), (0x2000, 0x200a), (0x2028, 0x2029), (0x202f, 0x202f),
   (0x205f, 0x205f), (0x3000, 0x3000)]

/-- Python's whitespace predicate: the characters `str.strip()` removes
and `str.isspace()` accepts. -/
def pyIsSpace (c : Char) : Bool :=
  pySpaceRanges.any (fun r => r.1 ≤ c.toNat && c.toNat ≤ r.2)

/-- Python `str.strip()`: drop leading and trailing whitespace. -/
def pyStrip (s : String) : String :=
  String.mk (((s.toList.dropWhile pyIsSpace).reverse.dropWhile pyIsSpace).reverse)

/-- The characters of `l` before the first occurrence of the (nonempty)
separator `sep`; the whole list when `sep` does not occur.  This is
Python `s.split(sep)[0]`. -/
def firstPart (sep : List Char) : List Char → List Char
  | [] => []
  | c :: rest =>
    if (c :: rest).take sep.length == sep then []
    else c :: firstPart sep rest

/-- Python `s.split(' / ')[0]` as used on a line item's `options`. -/
def optionsHead (s : String) : String :=
  String.mk (firstPart (" / ".toList) s.toList)

/-- The exact set of code points on which Python's `str.isdigit()` is
true (Unicode `Numeric_Type` Digit or Decimal: every decimal-digit
block including the fullwidth digits U+FF10-U+FF19 and the
Arabic-Indic digits U+0660-U+0669, plus superscripts, subscripts,
circled and parenthesized digits), as closed ranges of code points,
taken from CPython 3.11's Unicode data. -/
def pyDigitRanges : List (Nat × Nat) :=
  [(0x30, 0x39), (0xb2, 0xb3), (0xb9, 0xb9), (0x660, 0x669),
   (0x6f0, 0x6f9), (0x7c0, 0x7c9), (0x966, 0x96f), (0x9e6, 0x9ef),
   (0xa66, 0xa6f), (0xae6, 0xaef), (0xb66, 0xb6f), (0xbe6, 0xbef),
   (0xc66, 0xc6f), (0xce6, 0xcef), (0xd66, 0xd6f), (0xde6, 0xdef),
   (0xe50, 0xe59), (0xed0, 0xed9), (0xf20, 0xf29), (0x1040, 0x1049),
   (0x1090, 0x1099), (0x1369, 0x1371), (0x17e0, 0x17e9), (0x1810, 0x1819),
   (0x1946, 0x194f), (0x19d0, 0x19da), (0x1a80, 0x1a89), (0x1a90, 0x1a99),
   (0x1b50, 0x1b59), (0x1bb0, 0x1bb9), (0x1c40, 0x1c49), (0x1c50, 0x1c59),
   (0x2070, 0x2070), (0x2074, 0x2079), (0x2080, 0x2089), (0x2460, 0x2468),
   (0x2474, 0x247c), (0x2488, 0x2490), (0x24ea, 0x24ea), (0x24f5, 0x24fd),
   (0x24ff, 0x24ff), (0x2776, 0x277e), (0x2780, 0x2788), (0x278a, 0x2792),
   (0xa620, 0xa629), (0xa8d0, 0xa8d9), (0xa900, 0xa909), (0xa9d0, 0xa9d9),
   (0xa9f0, 0xa9f9), (0xaa50, 0xaa59), (0xabf0, 0xabf9), (0xff10, 0xff19),
   (0x104a0, 0x104a9), (0x10a40, 0x10a43), (0x10d30, 0x10d39), (0x10e60, 0x10e68),
   (0x11052, 0x1105a), (0x11066, 0x1106f), (0x110f0, 0x110f9), (0x11136, 0x1113f),
   (0x111d0, 0x111d9), (0x112f0, 0x112f9), (0x11450, 0x11459), (0x114d0, 0x114d9),
   (0x11650, 0x11659), (0x116c0, 0x116c9), (0x11730, 0x11739), (0x118e0, 0x118e9),
   (0x11950, 0x11959), (0x11c50, 0x11c59), (0x11d50, 0x11d59), (0x11da0, 0x11da9),
   (0x16a60, 0x16a69), (0x16ac0, 0x16ac9), (0x16b50, 0x16b59), (0x1d7ce, 0x1d7ff),
   (0x1e140, 0x1e149), (0x1e2f0, 0x1e2f9), (0x1e950, 0x1e959), (0x1f100, 0x1f10a),
   (0x1fbf0, 0x1fbf9)]

/-- Whether a single character counts as a digit for Python's
`str.isdigit()`. -/
def pyIsDigitChar (c : Char) : Bool :=
  pyDigitRanges.any (fun r => r.1 ≤ c.toNat && c.toNat ≤ r.2)

/-- Python `str.isdigit()`: nonempty and every character a Python
digit. -/
def pyIsdigit (s : String) : Bool :=
  !s.toList.isEmpty && s.toList.all pyIsDigitChar

/-- A row of the `contact_info` table. -/
structure ContactInfo where
  id : Nat
  contact_name : String
  contact_phone : String
  delivery_address : Option String
  pickup_type : String
deriving DecidableEq

/-- A row of the `order` table.  `items_json` holds the result of
deserializing the stored text blob: `some v` when the stored string is
valid JSON denoting `v`, `none` when `json.loads` on it raises (the
blob written by `place_order` is `json.dumps` of the cart, which always
round-trips, so freshly placed orders store `some`). -/
structure Order where
  id : Nat
  order_id : Nat
  status : String
  final_amount : Int
  items_json : Option PyValue
  created_at : Nat
  contact_id : Nat

/-- The database state: the two tables, the SQLite surrogate-key
allocators (modelled as monotone counters; no claim depends on SQLite's
rowid-reuse behaviour after deletes) and the logical clock. -/
structure DB where
  contacts : List ContactInfo
  orders : List Order
  next_contact_id : Nat
  next_order_pk : Nat
  clock : Nat

/-- The empty store (fresh `site.db`). -/
def emptyDB : DB :=
  { contacts := [], orders := [], next_contact_id := 1, next_order_pk := 1, clock := 0 }

/-- Result of the `POST /api/order` handler: 400, 500 (uncaught
exception or database failure) or 201 with the response fields
`order_id` and `final_amount`. -/
inductive PResp where
  | badRequest (msg : String)
  | serverError
  | created (order_id : Nat) (final_amount : Int)
deriving DecidableEq

/-- Python numeric coercion for `*` and `+` as exercised by the amount
loop: ints are themselves, bools are 0/1, anything else eventually
raises a `TypeError` in `total_amount += price * quantity` (a string or
list operand survives the `*` at most, then fails the `+=` against the
integer accumulator). -/
def toNum : PyValue → Option Int
  | PyValue.int n => some n
  | PyValue.bool b => some (if b then 1 else 0)
  | _ => none

/-- One iteration of the amount loop, app.py line 91:
`item.get('price', 0) * item.get('quantity', 0)`; raises when `item` is
not a dict (`AttributeError`) or a field is non-numeric. -/
def itemAmount : PyValue → Except Unit Int
  | PyValue.dict kvs =>
    match toNum (dGetD kvs "price" (PyValue.int 0)),
          toNum (dGetD kvs "quantity" (PyValue.int 0)) with
    | some p, some q => Except.ok (p * q)
    | _, _ => Except.error ()
  | _ => Except.error ()

/-- The amount loop, app.py lines 89-91; iterating a non-list value
either raises `TypeError` directly or yields non-dict elements that
raise inside the loop. -/
def cartTotal : PyValue → Except Unit Int
  | PyValue.list items =>
    items.foldlM (fun acc it => (itemAmount it).map (fun a => acc + a)) 0
  | _ => Except.error ()

/-- App.py line 94: `50 if data.get('pickupType') == 'delivery' else 0`. -/
def delivery_fee (kvs : List (String × PyValue)) : Int :=
  if pyBeq (dGet kvs "pickupType") (PyValue.str "delivery") then 50 else 0

/-- App.py lines 98-101: the business order number is one more than the
`order_id` of the first row of `Order.query.order_by(order_id desc)`,
or 1001 when the table is empty. -/
def next_order_number (orders : List Order) : Nat :=
  match (orders.insertionSort (fun a b => b.order_id ≤ a.order_id)).head? with
  | none => 1001
  | some o => o.order_id + 1

/-- App.py lines 110-113: address normalization.  `None` is falsy and
not equal to `""`, so it passes through; a string is stripped when
truthy, and an empty result (or an originally empty string) becomes
`None`.  A non-string truthy value would raise `AttributeError` at
`.strip()` (modelled as `none`; falsy non-strings, which SQLite would
accept, fall outside the payload schema and are modelled the same way). -/
def processAddress : PyValue → Option (Option String)
  | PyValue.pynone => some none
  | PyValue.str s =>
    let s1 := if s ≠ "" then pyStrip s else s
    some (if s1 = "" then none else some s1)
  | _ => none

/-- A value destined for a `nullable=False` string column: non-strings
are modelled as a failure (commit would reject them). -/
def asString : PyValue → Option String
  | PyValue.str s => some s
  | _ => none

/-- App.py lines 97-150 for a payload that passed the two key checks and
is a dict (for a list or string payload that passed them,
`data['cartItems']` raises `TypeError`, handled by the caller). -/
def place_order_dict (kvs : List (String × PyValue)) (db : DB) : PResp × DB :=
  match kvs.lookup "cartItems" with
  | none => (PResp.serverError, db)
  | some cart =>
    match cartTotal cart with
    | Except.error _ => (PResp.serverError, db)
    | Except.ok total_amount =>
      let final_amount := total_amount + delivery_fee kvs
      let new_order_id := next_order_number db.orders
      match dGetD kvs "contactInfo" (PyValue.dict []) with
      | PyValue.dict ci =>
        match asString (dGetD ci "name" (PyValue.str "N/A")),
              asString (dGetD ci "phone" (PyValue.str "N/A")),
              processAddress (dGetD ci "address" PyValue.pynone),
              asString (dGetD kvs "pickupType" (PyValue.str "pickup")) with
        | some contact_name, some contact_phone, some delivery_address, some pickup_type =>
          let new_contact : ContactInfo :=
            { id := db.next_contact_id, contact_name := contact_name,
              contact_phone := contact_phone, delivery_address := delivery_address,
              pickup_type := pickup_type }
          let new_db_order : Order :=
            { id := db.next_order_pk, order_id := new_order_id, status := "pending",
              final_amount := final_amount, items_json := some cart,
              created_at := db.clock, contact_id := new_contact.id }
          (PResp.created new_order_id final_amount,
           { contacts := db.contacts ++ [new_contact],
             orders := db.orders ++ [new_db_order],
             next_contact_id := db.next_contact_id + 1,
             next_order_pk := db.next_order_pk + 1,
             clock := db.clock + 1 })
        | _, _, _, _ => (PResp.serverError, db)
      | _ => (PResp.serverError, db)

/-- The `POST /api/order` handler, app.py lines 75-150.  `req` is `none`
when the request carries no JSON body (`request.is_json` false),
`some data` otherwise. -/
def place_order (req : Option PyValue) (db : DB) : PResp × DB :=
  match req with
  | none => (PResp.badRequest "Missing JSON in request", db)
  | some data =>
    match pyContains data "cartItems", pyContains data "contactInfo" with
    | Except.ok hasCart, Except.ok hasContact =>
      if hasCart = false ∨ hasContact = false then
        (PResp.badRequest "Invalid order data structure", db)
      else
        match data with
        | PyValue.dict kvs => place_order_dict kvs db
        | _ => (PResp.serverError, db)
    | _, _ => (PResp.serverError, db)

/-- The fixed marker substituted when rendering a stored items blob
raises, app.py lines 180 and 229. -/
def unparseableMarker : String := "無法解析訂單內容"

/-- App.py lines 175-176: one line item of the back-office `content`
string.  `options` must be a string (`.split` on anything else raises,
and the surrounding bare `except:` turns that into the marker); `item`
must be a dict (`.get` raises otherwise); `name` and `quantity` are
interpolated by the f-string with Python `str()`, which never raises. -/
def renderItemAll : PyValue → Except Unit String
  | PyValue.dict kvs =>
    match dGetD kvs "options" (PyValue.str "") with
    | PyValue.str oStr =>
      Except.ok (pyStr (dGetD kvs "name" (PyValue.str "未知飲品")) ++ " (" ++
        optionsHead oStr ++ ") x " ++ pyStr (dGetD kvs "quantity" (PyValue.int 1)))
    | _ => Except.error ()
  | _ => Except.error ()

/-- App.py line 226: one line item of the phone-query `content` string
(no options, a different name placeholder). -/
def renderItemQ : PyValue → Except Unit String
  | PyValue.dict kvs =>
    Except.ok (pyStr (dGetD kvs "name" (PyValue.str "飲品")) ++ " x " ++
      pyStr (dGetD kvs "quantity" (PyValue.int 1)))
  | _ => Except.error ()

/-- The `try/except` around deserializing and rendering a stored items
blob (app.py lines 171-180 and 222-229): a blob that is not valid JSON,
is not a JSON array, or whose rendering raises, all degrade to the fixed
marker; the bare `except:` catches every exception. -/
def renderContent (render : PyValue → Except Unit String) : Option PyValue → String
  | none => unparseableMarker
  | some (PyValue.list items) =>
    match items.mapM render with
    | Except.ok parts => String.intercalate ", " parts
    | Except.error _ => unparseableMarker
  | some _ => unparseableMarker

/-- One row of the `GET /api/orders/all` response (app.py lines
183-193).  Note that its `order_id` field carries the internal
surrogate `Order.id`, not the business `order_id`. -/
structure Summary where
  order_id : Nat
  content : String
  final_amount : Int
  customer_name : String
  contact_phone_last_three : String
  status : String
  pickup_type : String
  delivery_address : Option String
  created_at : Nat
deriving DecidableEq

/-- The `GET /api/orders/all` handler, app.py lines 153-195: all orders
sorted by surrogate id descending, each joined with its contact.  An
order whose `contact_id` matches no contact row would make the
attribute accesses on `order.contact` (which is then `None`) raise,
modelled as `Except.error`. -/
def get_all_orders (db : DB) : Except Unit (List Summary) :=
  (db.orders.insertionSort (fun a b => b.id ≤ a.id)).mapM (fun o =>
    match db.contacts.find? (fun c => c.id == o.contact_id) with
    | none => Except.error ()
    | some contact =>
      Except.ok
        { order_id := o.id,
          content := renderContent renderItemAll o.items_json,
          final_amount := o.final_amount,
          customer_name := contact.contact_name,
          contact_phone_last_three :=
            if contact.contact_phone ≠ "" then contact.contact_phone else "N/A",
          status := o.status,
          pickup_type := contact.pickup_type,
          delivery_address := contact.delivery_address,
          created_at := o.created_at })

/-- One row of the `GET /api/order/query` response (app.py lines
231-238); here `order_id` is the business order number. -/
structure QRow where
  order_id : Nat
  content : String
  final_amount : Int
  created_at : Nat
  pickup_type : String
  address : Option String
deriving DecidableEq

/-- Result of the `GET /api/order/query` handler. -/
inductive QResp where
  | badRequest (msg : String)
  | notFound (msg : String)
  | ok (rows : List QRow)
  | serverError
deriving DecidableEq

/-- The `GET /api/order/query` handler, app.py lines 198-240.
`phone_suffix` is `none` when the query parameter is absent.  The
validation rejects a missing or empty parameter (`not phone_suffix`), a
length other than 3, and non-digit content.  The lookup matches contact
rows whose phone field is *equal* to the suffix, then returns their
orders sorted by creation time descending. -/
def query_order_by_phone (phone_suffix : Option String) (db : DB) : QResp :=
  match phone_suffix with
  | none => QResp.badRequest "請提供正確的 3 位數字手機後三碼進行查詢。"
  | some s =>
    if s = "" ∨ s.length ≠ 3 ∨ pyIsdigit s = false then
      QResp.badRequest "請提供正確的 3 位數字手機後三碼進行查詢。"
    else
      let contacts := db.contacts.filter (fun c => c.contact_phone == s)
      if contacts.isEmpty then
        QResp.notFound "查無訂單，請確認手機後三碼是否正確。"
      else
        let contact_ids := contacts.map (fun c => c.id)
        let orders :=
          (db.orders.filter (fun o => contact_ids.contains o.contact_id)).insertionSort
            (fun a b => b.created_at ≤ a.created_at)
        match orders.mapM (fun o =>
          match db.contacts.find? (fun c => c.id == o.contact_id) with
          | none => Except.error ()
          | some contact =>
            Except.ok
              ({ order_id := o.order_id,
                 content := renderContent renderItemQ o.items_json,
                 final_amount := o.final_amount,
                 created_at := o.created_at,
                 pickup_type := contact.pickup_type,
                 address := contact.delivery_address } : QRow)) with
        | Except.ok rows => QResp.ok rows
        | Except.error _ => QResp.serverError

/-- The `POST /api/orders/clear` handler, app.py lines 252-273: delete
every `Order` row, then every `ContactInfo` row, commit, and report a
hard-coded `deleted_count` of 0. -/
def clear_all_orders (db : DB) : (String × Nat) × DB :=
  (("成功刪除所有訂單和聯絡人記錄，訂單編號將從 1001 開始。", 0),
   { db with orders := [], contacts := [] })

/-! ## The input schema of `placeOrder` (spec §4.2)

A payload is well formed when it is a JSON object with a `cartItems`
array of objects whose optional `price`/`quantity` are numbers and
optional `name`/`options` are strings, a `contactInfo` object whose
optional `name`/`phone` are strings and optional `address` is a string
or null, and an optional string `pickupType`. -/

/-- Whether a value is a JSON string. -/
def isStr : PyValue → Bool
  | PyValue.str _ => true
  | _ => false

/-- Whether a value is a JSON (integer) number. -/
def isInt : PyValue → Bool
  | PyValue.int _ => true
  | _ => false

/-- Whether the field `k`, when present, satisfies `p`. -/
def wfField (kvs : List (String × PyValue)) (k : String) (p : PyValue → Bool) : Bool :=
  match kvs.lookup k with
  | none => true
  | some v => p v

/-- A well-formed cart line item. -/
def WFItem : PyValue → Bool
  | PyValue.dict kvs =>
    wfField kvs "price" isInt && wfField kvs "quantity" isInt &&
      wfField kvs "name" isStr && wfField kvs "options" isStr
  | _ => false

/-- A well-formed `contactInfo` object. -/
def WFContact (ci : List (String × PyValue)) : Bool :=
  wfField ci "name" isStr && wfField ci "phone" isStr &&
    wfField ci "address" (fun v => isStr v || pyBeq v PyValue.pynone)

/-- A well-formed `placeOrder` payload. -/
def WFPayload : PyValue → Bool
  | PyValue.dict kvs =>
    (match kvs.lookup "cartItems" with
     | some (PyValue.list items) => items.all WFItem
     | _ => false) &&
    (match kvs.lookup "contactInfo" with
     | some (PyValue.dict ci) => WFContact ci
     | _ => false) &&
    wfField kvs "pickupType" isStr
  | _ => false

/-! ## Definitions written from the claims' words

These restate the specification's formulas independently of the code,
to be compared with the code's computation. -/

/-- Spec §4.2 step 1, claim side: a cart item's price, with a missing
price treated as 0. -/
def spec_price : PyValue → Int
  | PyValue.dict kvs =>
    match kvs.lookup "price" with
    | some (PyValue.int n) => n
    | _ => 0
  | _ => 0

/-- Spec §4.2 step 1, claim side: a cart item's quantity, with a
missing quantity treated as 0. -/
def spec_quantity : PyValue → Int
  | PyValue.dict kvs =>
    match kvs.lookup "quantity" with
    | some (PyValue.int n) => n
    | _ => 0
  | _ => 0

/-- Spec §4.2 steps 1-3, claim side:
`Σ(price×quantity) + (50 if pickupType=="delivery" else 0)`. -/
def spec_final_amount (items : List PyValue) (pickupType : PyValue) : Int :=
  (items.map (fun it => spec_price it * spec_quantity it)).sum +
    (match pickupType with
     | PyValue.str s => if s = "delivery" then 50 else 0
     | _ => 0)

/-- Spec §3, claim side: the next business order number is
`(max existing orderNumber) + 1`, or 1001 when no orders exist. -/
def spec_next_order_number (orders : List Order) : Nat :=
  match (orders.map (fun o => o.order_id)).max? with
  | none => 1001
  | some m => m + 1

/-- The string carried by a value known to be a string. -/
def strD : PyValue → String
  | PyValue.str s => s
  | _ => ""

/-- The delivery address stored by a well-formed `placeOrder` call. -/
def wf_address (ci : List (String × PyValue)) : Option String :=
  (processAddress (dGetD ci "address" PyValue.pynone)).getD none

/-- The contact row persisted by a well-formed `placeOrder` call. -/
def wf_contact_row (db : DB) (kvs ci : List (String × PyValue)) : ContactInfo :=
  { id := db.next_contact_id,
    contact_name := strD (dGetD ci "name" (PyValue.str "N/A")),
    contact_phone := strD (dGetD ci "phone" (PyValue.str "N/A")),
    delivery_address := wf_address ci,
    pickup_type := strD (dGetD kvs "pickupType" (PyValue.str "pickup")) }

/-- The order row persisted by a well-formed `placeOrder` call. -/
def wf_order_row (db : DB) (kvs : List (String × PyValue)) (items : List PyValue) : Order :=
  { id := db.next_order_pk,
    order_id := next_order_number db.orders,
    status := "pending",
    final_amount := spec_final_amount items (dGet kvs "pickupType"),
    items_json := some (PyValue.list items),
    created_at := db.clock,
    contact_id := db.next_contact_id }

/-- The database state after a well-formed `placeOrder` call. -/
def wf_post_db (db : DB) (kvs ci : List (String × PyValue)) (items : List PyValue) : DB :=
  { contacts := db.contacts ++ [wf_contact_row db kvs ci],
    orders := db.orders ++ [wf_order_row db kvs items],
    next_contact_id := db.next_contact_id + 1,
    next_order_pk := db.next_order_pk + 1,
    clock := db.clock + 1 }

/-! ## Helper lemmas -/

theorem lookup_any {kvs : List (String × PyValue)} {k : String} {v : PyValue}
    (h : kvs.lookup k = some v) : kvs.any (fun kv => k == kv.1) = true := by
  induction kvs with
  | nil => simp [List.lookup] at h
  | cons hd tl ih =>
    obtain ⟨k1, v1⟩ := hd
    simp only [List.lookup] at h
    cases hk : (k == k1) with
    | true => simp [List.any_cons, hk]
    | false =>
      rw [hk] at h
      simp [List.any_cons, hk, ih h]

theorem wfField_cases_int {kvs : List (String × PyValue)} {k : String}
    (h : wfField kvs k isInt = true) :
    kvs.lookup k = none ∨ ∃ n, kvs.lookup k = some (PyValue.int n) := by
  unfold wfField at h
  cases hl : kvs.lookup k with
  | none => exact Or.inl rfl
  | some v =>
    rw [hl] at h
    cases v <;> simp [isInt] at h
    exact Or.inr ⟨_, rfl⟩

theorem wfField_cases_str {kvs : List (String × PyValue)} {k : String}
    (h : wfField kvs k isStr = true) :
    kvs.lookup k = none ∨ ∃ s, kvs.lookup k = some (PyValue.str s) := by
  unfold wfField at h
  cases hl : kvs.lookup k with
  | none => exact Or.inl rfl
  | some v =>
    rw [hl] at h
    cases v <;> simp [isStr] at h
    exact Or.inr ⟨_, rfl⟩

theorem asString_of_wfField {kvs : List (String × PyValue)} {k : String} {d : String}
    (h : wfField kvs k isStr = true) :
    asString (dGetD kvs k (PyValue.str d)) = some (strD (dGetD kvs k (PyValue.str d))) := by
  rcases wfField_cases_str h with hl | ⟨s, hl⟩ <;> simp [dGetD, hl, asString, strD]

theorem processAddress_of_wfField {ci : List (String × PyValue)}
    (h : wfField ci "address" (fun v => isStr v || pyBeq v PyValue.pynone) = true) :
    processAddress (dGetD ci "address" PyValue.pynone) = some (wf_address ci) := by
  unfold wfField at h
  unfold wf_address
  cases hl : ci.lookup "address" with
  | none => simp [dGetD, hl, processAddress]
  | some v =>
    rw [hl] at h
    cases v <;> simp [isStr, pyBeq] at h <;> simp [dGetD, hl, processAddress]

theorem itemAmount_wf {it : PyValue} (h : WFItem it = true) :
    itemAmount it = Except.ok (spec_price it * spec_quantity it) := by
  cases it with
  | dict kvs =>
    simp only [WFItem, Bool.and_eq_true] at h
    obtain ⟨⟨⟨hp, hq⟩, -⟩, -⟩ := h
    rcases wfField_cases_int hp with hlp | ⟨p, hlp⟩ <;>
      rcases wfField_cases_int hq with hlq | ⟨q, hlq⟩ <;>
        simp [itemAmount, spec_price, spec_quantity, dGetD, hlp, hlq, toNum]
  | pynone => simp [WFItem] at h
  | bool b => simp [WFItem] at h
  | int n => simp [WFItem] at h
  | str s => simp [WFItem] at h
  | list xs => simp [WFItem] at h

theorem cartTotal_fold_wf {items : List PyValue} (h : items.all WFItem = true) :
    ∀ acc : Int,
      items.foldlM (fun acc it => (itemAmount it).map (fun a => acc + a)) acc =
        Except.ok (acc + (items.map (fun it => spec_price it * spec_quantity it)).sum) := by
  induction items with
  | nil => intro acc; simp; rfl
  | cons it rest ih =>
    intro acc
    simp only [List.all_cons, Bool.and_eq_true] at h
    obtain ⟨hit, hrest⟩ := h
    have hstep : (it :: rest).foldlM
          (fun acc it => (itemAmount it).map (fun a => acc + a)) acc =
        rest.foldlM (fun acc it => (itemAmount it).map (fun a => acc + a))
          (acc + spec_price it * spec_quantity it) := by
      rw [List.foldlM_cons, itemAmount_wf hit]
      rfl
    rw [hstep, ih hrest, List.map_cons, List.sum_cons]
    congr 1
    ring

theorem cartTotal_wf {items : List PyValue} (h : items.all WFItem = true) :
    cartTotal (PyValue.list items) =
      Except.ok ((items.map (fun it => spec_price it * spec_quantity it)).sum) := by
  have := cartTotal_fold_wf h 0
  simpa [cartTotal] using this

theorem delivery_fee_eq (kvs : List (String × PyValue)) :
    delivery_fee kvs =
      (match dGet kvs "pickupType" with
       | PyValue.str s => if s = "delivery" then (50 : Int) else 0
       | _ => 0) := by
  unfold delivery_fee
  cases h : dGet kvs "pickupType" <;> simp [pyBeq]

/-- The master lemma: for a payload matching the input schema,
`place_order` succeeds, responds with the next order number and the
specification's amount formula, and appends exactly one contact row and
one order row. -/
theorem place_order_wf (db : DB) {kvs ci : List (String × PyValue)} {items : List PyValue}
    (h1 : kvs.lookup "cartItems" = some (PyValue.list items))
    (h2 : items.all WFItem = true)
    (h3 : kvs.lookup "contactInfo" = some (PyValue.dict ci))
    (h4 : WFContact ci = true)
    (h5 : wfField kvs "pickupType" isStr = true) :
    place_order (some (PyValue.dict kvs)) db =
      (PResp.created (next_order_number db.orders)
        (spec_final_amount items (dGet kvs "pickupType")),
       wf_post_db db kvs ci items) := by
  obtain ⟨⟨hn, hp⟩, ha⟩ : (wfField ci "name" isStr = true ∧ wfField ci "phone" isStr = true) ∧
      wfField ci "address" (fun v => isStr v || pyBeq v PyValue.pynone) = true := by
    simpa [WFContact, Bool.and_eq_true, and_assoc] using h4
  have hci : dGetD kvs "contactInfo" (PyValue.dict []) = PyValue.dict ci := by
    simp [dGetD, h3]
  simp only [place_order, pyContains, lookup_any h1, lookup_any h3]
  simp only [Bool.true_eq_false, or_self, if_false]
  simp only [place_order_dict, h1, cartTotal_wf h2, hci,
    asString_of_wfField hn, asString_of_wfField hp, asString_of_wfField h5,
    processAddress_of_wfField ha]
  rw [delivery_fee_eq]
  simp only [wf_post_db, wf_contact_row, wf_order_row, spec_final_amount, dGet]

theorem WFPayload_elim {p : PyValue} (h : WFPayload p = true) :
    ∃ kvs items ci, p = PyValue.dict kvs ∧
      kvs.lookup "cartItems" = some (PyValue.list items) ∧ items.all WFItem = true ∧
      kvs.lookup "contactInfo" = some (PyValue.dict ci) ∧ WFContact ci = true ∧
      wfField kvs "pickupType" isStr = true := by
  cases p with
  | dict kvs =>
    simp only [WFPayload, Bool.and_eq_true] at h
    obtain ⟨⟨h1, h2⟩, h3⟩ := h
    cases hc : kvs.lookup "cartItems" with
    | none => rw [hc] at h1; simp at h1
    | some v =>
      rw [hc] at h1
      cases v with
      | list items =>
        cases hk : kvs.lookup "contactInfo" with
        | none => rw [hk] at h2; simp at h2
        | some w =>
          rw [hk] at h2
          cases w with
          | dict ci => exact ⟨kvs, items, ci, rfl, hc, h1, hk, h2, h3⟩
          | pynone => simp at h2
          | bool b => simp at h2
          | int n => simp at h2
          | str s => simp at h2
          | list xs => simp at h2
      | pynone => simp at h1
      | bool b => simp at h1
      | int n => simp at h1
      | str s => simp at h1
      | dict kvs2 => simp at h1
  | pynone => simp [WFPayload] at h
  | bool b => simp [WFPayload] at h
  | int n => simp [WFPayload] at h
  | str s => simp [WFPayload] at h
  | list xs => simp [WFPayload] at h

/-! ## Order-number assignment -/

instance : IsTotal Order (fun a b => b.order_id ≤ a.order_id) :=
  ⟨fun a b => Nat.le_total b.order_id a.order_id⟩

instance : IsTrans Order (fun a b => b.order_id ≤ a.order_id) :=
  ⟨fun _ _ _ h1 h2 => le_trans h2 h1⟩

/-- The code's first-row-of-descending-sort computation agrees with the
specification's max-based description. -/
theorem next_eq_spec (orders : List Order) :
    next_order_number orders = spec_next_order_number orders := by
  unfold next_order_number spec_next_order_number
  have hperm := List.perm_insertionSort (fun a b => b.order_id ≤ a.order_id) orders
  cases hh : (orders.insertionSort (fun a b => b.order_id ≤ a.order_id)).head? with
  | none =>
    have hnil := List.head?_eq_none_iff.mp hh
    rw [hnil] at hperm
    have : orders = [] := hperm.symm.eq_nil
    simp [this]
  | some o =>
    obtain ⟨tail, htail⟩ := List.head?_eq_some_iff.mp hh
    have hs := List.sorted_insertionSort (fun a b => b.order_id ≤ a.order_id) orders
    rw [htail] at hs hperm
    have hmem : ∀ x ∈ orders, x.order_id ≤ o.order_id := by
      intro x hx
      have : x ∈ o :: tail := hperm.mem_iff.mpr hx
      rcases List.mem_cons.mp this with rfl | hxt
      · exact le_refl _
      · exact (List.pairwise_cons.mp hs).1 x hxt
    have ho : o ∈ orders := hperm.mem_iff.mp (List.mem_cons_self o tail)
    have hmax : (orders.map (fun o => o.order_id)).max? = some o.order_id := by
      rw [List.max?_eq_some_iff (fun a => Nat.le_refl a) (fun a b => max_choice a b)
        (fun a b c => Nat.max_le)]
      refine ⟨List.mem_map_of_mem _ ho, ?_⟩
      intro b hb
      obtain ⟨x, hx, rfl⟩ := List.mem_map.mp hb
      exact hmem x hx
    simp [hmax]

/-- Appending a row carrying the freshly computed number bumps the next
number by one. -/
theorem next_append (l : List Order) (row : Order)
    (hrow : row.order_id = next_order_number l) :
    next_order_number (l ++ [row]) = next_order_number l + 1 := by
  simp only [next_eq_spec] at hrow ⊢
  unfold spec_next_order_number at *
  cases hm : (l.map (fun o => o.order_id)).max? with
  | none =>
    have hnil : l.map (fun o => o.order_id) = [] := by
      cases hl : l.map (fun o => o.order_id) with
      | nil => rfl
      | cons a t => rw [hl] at hm; simp [List.max?] at hm
    have : l = [] := List.map_eq_nil_iff.mp hnil
    subst this
    rw [hm] at hrow
    simp [hrow, List.max?]
  | some m =>
    rw [hm] at hrow
    simp only [] at hrow
    have hch := (List.max?_eq_some_iff (fun a => Nat.le_refl a) (fun a b => max_choice a b)
        (fun a b c => Nat.max_le)).mp hm
    have hmax2 : (l.map (fun o => o.order_id) ++ [row.order_id]).max? = some (m + 1) := by
      rw [List.max?_eq_some_iff (fun a => Nat.le_refl a) (fun a b => max_choice a b)
        (fun a b c => Nat.max_le)]
      constructor
      · rw [List.mem_append]
        exact Or.inr (by simp [hrow])
      · intro b hb
        rw [List.mem_append] at hb
        rcases hb with hb | hb
        · exact le_trans (hch.2 b hb) (Nat.le_succ m)
        · simp [hrow] at hb
          omega
    rw [List.map_append] at *
    simp [hmax2]

/-- Placing several orders in sequence, threading the database. -/
def placeAll (ps : List PyValue) (db : DB) : List PResp × DB :=
  match ps with
  | [] => ([], db)
  | p :: rest =>
    let r := place_order (some p) db
    let rs := placeAll rest r.2
    (r.1 :: rs.1, rs.2)

/-- The order number carried by a successful response. -/
def numOf : PResp → Nat
  | PResp.created n _ => n
  | _ => 0

theorem place_order_wf_orders {p : PyValue} (db : DB) (h : WFPayload p = true) :
    ∃ fa row,
      (place_order (some p) db).1 = PResp.created (next_order_number db.orders) fa ∧
      (place_order (some p) db).2.orders = db.orders ++ [row] ∧
      row.order_id = next_order_number db.orders := by
  obtain ⟨kvs, items, ci, rfl, hc, hi, hk, hwc, hpt⟩ := WFPayload_elim h
  rw [place_order_wf db hc hi hk hwc hpt]
  exact ⟨_, wf_order_row db kvs items, rfl, rfl, rfl⟩

theorem placeAll_numbers : ∀ (ps : List PyValue) (db : DB),
    (∀ p ∈ ps, WFPayload p = true) →
    (placeAll ps db).1.map numOf =
      (List.range ps.length).map (fun i => next_order_number db.orders + i) := by
  intro ps
  induction ps with
  | nil => intro db _; simp [placeAll]
  | cons p rest ih =>
    intro db hwf
    obtain ⟨fa, row, hr1, hr2, hrow⟩ :=
      place_order_wf_orders db (hwf p (List.mem_cons_self p rest))
    have hnext : next_order_number (place_order (some p) db).2.orders =
        next_order_number db.orders + 1 := by
      rw [hr2]
      exact next_append db.orders row hrow
    have ihr := ih (place_order (some p) db).2 (fun q hq => hwf q (List.mem_cons_of_mem p hq))
    rw [hnext] at ihr
    simp only [placeAll, List.map_cons, hr1, ihr, List.length_cons,
      List.range_succ_eq_map, List.map_map, numOf]
    congr 1
    apply List.map_congr_left
    intro i hi
    simp only [Function.comp_apply]
    omega

/-! ## Query and listing machinery -/

theorem lookup_none_any {kvs : List (String × PyValue)} {k : String}
    (h : kvs.lookup k = none) : kvs.any (fun kv => k == kv.1) = false := by
  induction kvs with
  | nil => rfl
  | cons hd tl ih =>
    obtain ⟨k1, v1⟩ := hd
    simp only [List.lookup] at h
    cases hk : (k == k1) with
    | true => rw [hk] at h; simp at h
    | false =>
      rw [hk] at h
      simp [List.any_cons, hk, ih h]

theorem mapM_ok {α β : Type} (f : α → Except Unit β) (g : α → β) (l : List α)
    (h : ∀ a ∈ l, f a = Except.ok (g a)) : l.mapM f = Except.ok (l.map g) := by
  induction l with
  | nil => rfl
  | cons a t ih =>
    rw [List.mapM_cons, h a (List.mem_cons_self a t)]
    have ht := ih (fun x hx => h x (List.mem_cons_of_mem a hx))
    show (Except.ok (g a) >>= fun b => t.mapM f >>= fun bs => pure (b :: bs)) = _
    rw [show ((Except.ok (g a) : Except Unit β) >>= fun b =>
        t.mapM f >>= fun bs => pure (b :: bs)) =
        (t.mapM f >>= fun bs => pure (g a :: bs)) from rfl, ht]
    rfl

/-- The placeholder used when resolving a relationship that is known to
succeed (never observable: it is only read behind a `find?` that is
proven to return `some`). -/
def dummyContact : ContactInfo :=
  { id := 0, contact_name := "", contact_phone := "", delivery_address := none,
    pickup_type := "" }

/-- The summary row built for an order whose contact exists. -/
def mkSummary (db : DB) (o : Order) : Summary :=
  let contact := (db.contacts.find? (fun c => c.id == o.contact_id)).getD dummyContact
  { order_id := o.id,
    content := renderContent renderItemAll o.items_json,
    final_amount := o.final_amount,
    customer_name := contact.contact_name,
    contact_phone_last_three :=
      if contact.contact_phone ≠ "" then contact.contact_phone else "N/A",
    status := o.status,
    pickup_type := contact.pickup_type,
    delivery_address := contact.delivery_address,
    created_at := o.created_at }

/-- The query-response row built for an order whose contact exists. -/
def mkQRow (db : DB) (o : Order) : QRow :=
  let contact := (db.contacts.find? (fun c => c.id == o.contact_id)).getD dummyContact
  { order_id := o.order_id,
    content := renderContent renderItemQ o.items_json,
    final_amount := o.final_amount,
    created_at := o.created_at,
    pickup_type := contact.pickup_type,
    address := contact.delivery_address }

/-- Referential integrity of a database state: every order points at an
existing contact row (guaranteed by the schema's non-nullable foreign
key). -/
def WFDB (db : DB) : Bool :=
  db.orders.all (fun o => db.contacts.any (fun c => c.id == o.contact_id))

instance : IsTotal Order (fun a b => b.id ≤ a.id) :=
  ⟨fun a b => Nat.le_total b.id a.id⟩

instance : IsTrans Order (fun a b => b.id ≤ a.id) :=
  ⟨fun _ _ _ h1 h2 => le_trans h2 h1⟩

instance : IsTotal Order (fun a b => b.created_at ≤ a.created_at) :=
  ⟨fun a b => Nat.le_total b.created_at a.created_at⟩

instance : IsTrans Order (fun a b => b.created_at ≤ a.created_at) :=
  ⟨fun _ _ _ h1 h2 => le_trans h2 h1⟩

theorem find_contact_ok {db : DB} {o : Order}
    (h : (db.contacts.find? (fun c => c.id == o.contact_id)).isSome = true) :
    (match db.contacts.find? (fun c => c.id == o.contact_id) with
      | none => Except.error ()
      | some contact =>
        Except.ok
          ({ order_id := o.order_id,
             content := renderContent renderItemQ o.items_json,
             final_amount := o.final_amount,
             created_at := o.created_at,
             pickup_type := contact.pickup_type,
             address := contact.delivery_address } : QRow)) =
      Except.ok (mkQRow db o) := by
  cases hf : db.contacts.find? (fun c => c.id == o.contact_id) with
  | none => rw [hf] at h; simp at h
  | some c => simp [mkQRow, hf]

theorem find_contact_ok_summary {db : DB} {o : Order}
    (h : (db.contacts.find? (fun c => c.id == o.contact_id)).isSome = true) :
    (match db.contacts.find? (fun c => c.id == o.contact_id) with
      | none => Except.error ()
      | some contact =>
        Except.ok
          ({ order_id := o.id,
             content := renderContent renderItemAll o.items_json,
             final_amount := o.final_amount,
             customer_name := contact.contact_name,
             contact_phone_last_three :=
               if contact.contact_phone ≠ "" then contact.contact_phone else "N/A",
             status := o.status,
             pickup_type := contact.pickup_type,
             delivery_address := contact.delivery_address,
             created_at := o.created_at } : Summary)) =
      Except.ok (mkSummary db o) := by
  cases hf : db.contacts.find? (fun c => c.id == o.contact_id) with
  | none => rw [hf] at h; simp at h
  | some c => simp [mkSummary, hf]

theorem contains_ids_eq (contacts : List ContactInfo) (s : String) (x : Nat) :
    ((contacts.filter (fun c => c.contact_phone == s)).map (fun c => c.id)).contains x =
      contacts.any (fun c => c.contact_phone == s && c.id == x) := by
  induction contacts with
  | nil => rfl
  | cons c cs ih =>
    have hbeq : (x == c.id) = (c.id == x) := by
      cases hxc : (x == c.id) with
      | true => simp at hxc; simp [hxc]
      | false =>
        cases hcx : (c.id == x) with
        | true => simp at hcx; simp [hcx] at hxc
        | false => rfl
    rw [List.any_cons]
    cases hc : (c.contact_phone == s) with
    | false =>
      rw [List.filter_cons_of_neg (by simp [hc]), ih]
      simp
    | true =>
      rw [List.filter_cons_of_pos (by simp [hc]), List.map_cons, List.contains_cons,
        ih, hbeq]
      simp

/-- An ASCII decimal digit is in particular a Python digit (the first
range of `pyDigitRanges` is 0x30-0x39). -/
theorem asciiDigit_pyDigit {c : Char} (h : c.isDigit = true) :
    pyIsDigitChar c = true := by
  simp only [Char.isDigit, Bool.and_eq_true, decide_eq_true_eq] at h
  obtain ⟨h1, h2⟩ := h
  have n1 : (48 : Nat) ≤ c.toNat := h1
  have n2 : c.toNat ≤ 57 := h2
  simp [pyIsDigitChar, pyDigitRanges]
  omega

/-- Whether a `placeOrder` result is an `InvalidRequest` (HTTP 400). -/
def isBadRequestP : PResp → Bool
  | PResp.badRequest _ => true
  | _ => false

/-- Whether a query result is an `InvalidRequest` (HTTP 400). -/
def isBadRequestQ : QResp → Bool
  | QResp.badRequest _ => true
  | _ => false

/-! ## Concrete values used by the witnesses -/

/-- A concrete cart line item. -/
def wItem : PyValue :=
  PyValue.dict
    [("name", PyValue.str "珍珠奶茶"), ("price", PyValue.int 60),
     ("quantity", PyValue.int 2), ("options", PyValue.str "少冰 / 半糖")]

/-- A concrete contact with a whitespace-only address. -/
def wci : List (String × PyValue) :=
  [("name", PyValue.str "Amy"), ("phone", PyValue.str "123"),
   ("address", PyValue.str "   ")]

/-- A concrete payload: one item, delivery, whitespace-only address. -/
def wkvs : List (String × PyValue) :=
  [("cartItems", PyValue.list [wItem]),
   ("contactInfo", PyValue.dict wci),
   ("pickupType", PyValue.str "delivery")]

/-- A concrete payload with an empty cart. -/
def wkvsEmpty : List (String × PyValue) :=
  [("cartItems", PyValue.list []),
   ("contactInfo", PyValue.dict
     [("name", PyValue.str "Bob"), ("phone", PyValue.str "456")]),
   ("pickupType", PyValue.str "delivery")]

/-! ## The claims -/

/-- C1: for every well-formed `placeOrder` payload, the computed
`finalAmount` equals the sum over all cart items of price times
quantity (missing price or quantity counting as 0) plus 50 exactly when
`pickupType` equals `"delivery"` — `spec_final_amount` is that formula,
written from the claim. -/
theorem place_order_final_amount (db : DB) (kvs : List (String × PyValue))
    (items : List PyValue)
    (h : WFPayload (PyValue.dict kvs) = true)
    (hc : kvs.lookup "cartItems" = some (PyValue.list items)) :
    (place_order (some (PyValue.dict kvs)) db).1 =
      PResp.created (next_order_number db.orders)
        (spec_final_amount items (dGet kvs "pickupType")) := by
  obtain ⟨kvs2, items2, ci, heq, hc2, hi, hk, hwc, hpt⟩ := WFPayload_elim h
  injection heq with heq
  subst heq
  rw [hc] at hc2
  injection hc2 with hc2
  injection hc2 with hc2
  subst hc2
  rw [place_order_wf db hc hi hk hwc hpt]

/-- Witness for C1: the round-trip example of spec §8 — one 60-dollar
item with quantity 2 under delivery yields `finalAmount` 170. -/
theorem place_order_final_amount_witness :
    (place_order (some (PyValue.dict wkvs)) emptyDB).1 = PResp.created 1001 170 := by
  rw [place_order_final_amount emptyDB wkvs [wItem] rfl rfl]
  decide

/-- C2: the first successful order gets number 1001 and each further
order gets the maximum existing number plus one
(`spec_next_order_number` is the claim's formula); placing N well-formed
orders against the empty store yields 1001, 1002, …, 1000+N in
placement order. -/
theorem order_numbers_sequential :
    (∀ (db : DB) (p : PyValue), WFPayload p = true →
      ∃ fa, (place_order (some p) db).1 =
        PResp.created (spec_next_order_number db.orders) fa) ∧
    (∀ ps : List PyValue, (∀ p ∈ ps, WFPayload p = true) →
      (placeAll ps emptyDB).1.map numOf =
        (List.range ps.length).map (fun i => 1001 + i)) := by
  constructor
  · intro db p h
    obtain ⟨fa, row, hr1, -, -⟩ := place_order_wf_orders db h
    exact ⟨fa, by rw [hr1, next_eq_spec]⟩
  · intro ps h
    simpa using placeAll_numbers ps emptyDB h

/-- Witness for C2: two concrete orders from the empty store get the
numbers 1001 and 1002. -/
theorem order_numbers_sequential_witness :
    (placeAll [PyValue.dict wkvs, PyValue.dict wkvs] emptyDB).1.map numOf =
      [1001, 1002] := by
  have h := order_numbers_sequential.2 [PyValue.dict wkvs, PyValue.dict wkvs]
    (by
      intro p hp
      rcases List.mem_cons.mp hp with h1 | h2
      · rw [h1]; rfl
      · rcases List.mem_cons.mp h2 with h3 | h4
        · rw [h3]; rfl
        · simp at h4)
  simpa using h

/-- C6: `clearAllOrders` empties both tables, always reports a deleted
count of 0 whatever was stored, and a subsequent successful
`placeOrder` is numbered 1001 again. -/
theorem clear_all_orders_resets (db : DB) :
    (clear_all_orders db).1.2 = 0 ∧
    (clear_all_orders db).2.orders = [] ∧
    (clear_all_orders db).2.contacts = [] ∧
    (∀ p : PyValue, WFPayload p = true →
      ∃ fa, (place_order (some p) (clear_all_orders db).2).1 =
        PResp.created 1001 fa) := by
  refine ⟨rfl, rfl, rfl, ?_⟩
  intro p h
  obtain ⟨fa, row, hr1, -, -⟩ := place_order_wf_orders (clear_all_orders db).2 h
  exact ⟨fa, hr1⟩

/-- Witness for C6: clearing a store that holds one order, then placing
a well-formed order, yields number 1001 again. -/
theorem clear_all_orders_resets_witness :
    ∃ fa, (place_order (some (PyValue.dict wkvs))
        (clear_all_orders (place_order (some (PyValue.dict wkvs)) emptyDB).2).2).1 =
      PResp.created 1001 fa :=
  (clear_all_orders_resets (place_order (some (PyValue.dict wkvs)) emptyDB).2).2.2.2
    (PyValue.dict wkvs) rfl

/-- C10: a payload whose `cartItems` is present but empty passes
validation; the order is persisted (one more order row) and its
`finalAmount` is exactly the delivery fee: 50 under `"delivery"`, 0
otherwise. -/
theorem place_order_empty_cart (db : DB) (kvs : List (String × PyValue))
    (h : WFPayload (PyValue.dict kvs) = true)
    (hc : kvs.lookup "cartItems" = some (PyValue.list [])) :
    (place_order (some (PyValue.dict kvs)) db).1 =
      PResp.created (next_order_number db.orders)
        (match dGet kvs "pickupType" with
         | PyValue.str s => if s = "delivery" then (50 : Int) else 0
         | _ => 0) ∧
    (place_order (some (PyValue.dict kvs)) db).2.orders.length =
      db.orders.length + 1 := by
  obtain ⟨kvs2, items2, ci, heq, hc2, hi, hk, hwc, hpt⟩ := WFPayload_elim h
  injection heq with heq
  subst heq
  rw [hc] at hc2
  injection hc2 with hc2
  injection hc2 with hc2
  subst hc2
  rw [place_order_wf db hc hi hk hwc hpt]
  refine ⟨?_, by simp [wf_post_db]⟩
  simp [spec_final_amount]

/-- Witness for C10: the empty-cart payload under delivery is accepted
with `finalAmount` 50 and one persisted order. -/
theorem place_order_empty_cart_witness :
    (place_order (some (PyValue.dict wkvsEmpty)) emptyDB).1 =
      PResp.created 1001 50 ∧
    (place_order (some (PyValue.dict wkvsEmpty)) emptyDB).2.orders.length = 1 := by
  have h := place_order_empty_cart emptyDB wkvsEmpty rfl rfl
  simpa using h

theorem wf_address_eq (ci : List (String × PyValue)) :
    wf_address ci =
      (match ci.lookup "address" with
       | none => none
       | some PyValue.pynone => none
       | some (PyValue.str s) => if pyStrip s = "" then none else some (pyStrip s)
       | some _ => none) := by
  unfold wf_address dGetD
  cases hl : ci.lookup "address" with
  | none => rfl
  | some v =>
    cases v with
    | str s =>
      by_cases hs : s = ""
      · subst hs; rfl
      · simp [processAddress, hs]
    | pynone => rfl
    | bool b => rfl
    | int n => rfl
    | list xs => rfl
    | dict kvs2 => rfl

/-- C7: on a well-formed payload, a missing address, a `null` address,
and an address whose whitespace-trimmed form is empty all persist as
absent on the newly created contact row; any other address persists
with surrounding whitespace stripped. -/
theorem address_persistence (db : DB) (kvs ci : List (String × PyValue))
    (h : WFPayload (PyValue.dict kvs) = true)
    (hci : kvs.lookup "contactInfo" = some (PyValue.dict ci)) :
    (place_order (some (PyValue.dict kvs)) db).2.contacts.map
        (fun c => c.delivery_address) =
      db.contacts.map (fun c => c.delivery_address) ++
        [match ci.lookup "address" with
         | none => none
         | some PyValue.pynone => none
         | some (PyValue.str s) => if pyStrip s = "" then none else some (pyStrip s)
         | some _ => none] := by
  obtain ⟨kvs2, items2, ci2, heq, hc2, hi, hk, hwc, hpt⟩ := WFPayload_elim h
  injection heq with heq
  subst heq
  rw [hci] at hk
  injection hk with hk
  injection hk with hk
  subst hk
  rw [place_order_wf db hc2 hi hci hwc hpt]
  simp [wf_post_db, wf_contact_row, wf_address_eq]

/-- A concrete contact whose address is padded with ideographic
(fullwidth, U+3000) spaces, as a CJK IME produces them. -/
def wci2 : List (String × PyValue) :=
  [("name", PyValue.str "Mei"), ("phone", PyValue.str "789"),
   ("address", PyValue.str "　台北　")]

/-- A concrete payload around `wci2` (no `pickupType`: it is optional). -/
def wkvs2 : List (String × PyValue) :=
  [("cartItems", PyValue.list []), ("contactInfo", PyValue.dict wci2)]

/-- Witness for C7: the ASCII-whitespace-only address `"   "` persists
as absent, and the fullwidth-space-padded address `"　台北　"` persists
trimmed to `"台北"` (U+3000 is whitespace for Python's `strip`). -/
theorem address_persistence_witness :
    ((place_order (some (PyValue.dict wkvs)) emptyDB).2.contacts.map
        (fun c => c.delivery_address) = [none]) ∧
    ((place_order (some (PyValue.dict wkvs2)) emptyDB).2.contacts.map
        (fun c => c.delivery_address) = [some "台北"]) := by
  constructor
  · rw [address_persistence emptyDB wkvs wci rfl rfl]
    decide
  · rw [address_persistence emptyDB wkvs2 wci2 rfl rfl]
    decide

/-- Counterexample to C8 as stated: the body `5` is well-formed JSON
that is not structured data (and trivially lacks both keys), yet the
handler does not answer `InvalidRequest`: `'cartItems' not in data`
raises `TypeError` on the integer, an uncaught exception (HTTP 500). -/
theorem place_order_malformed_counterexample :
    place_order (some (PyValue.int 5)) emptyDB = (PResp.serverError, emptyDB) ∧
    isBadRequestP (place_order (some (PyValue.int 5)) emptyDB).1 = false :=
  ⟨rfl, rfl⟩

/-- C8 amended: `placeOrder` fails with `InvalidRequest` and persists
nothing when the request carries no JSON body, and when the payload is
a JSON object lacking the `cartItems` key or the `contactInfo` key;
for a JSON number, boolean or null payload the membership test raises
instead and the handler yields a server error (500), still persisting
nothing. -/
theorem place_order_invalid_request (db : DB) :
    place_order none db = (PResp.badRequest "Missing JSON in request", db) ∧
    (∀ kvs : List (String × PyValue),
      kvs.lookup "cartItems" = none ∨ kvs.lookup "contactInfo" = none →
      place_order (some (PyValue.dict kvs)) db =
        (PResp.badRequest "Invalid order data structure", db)) ∧
    (∀ n : Int, place_order (some (PyValue.int n)) db = (PResp.serverError, db)) ∧
    (∀ b : Bool, place_order (some (PyValue.bool b)) db = (PResp.serverError, db)) ∧
    place_order (some PyValue.pynone) db = (PResp.serverError, db) := by
  refine ⟨rfl, ?_, fun n => rfl, fun b => rfl, rfl⟩
  intro kvs hmiss
  rcases hmiss with hmiss | hmiss
  · simp [place_order, pyContains, lookup_none_any hmiss]
  · simp [place_order, pyContains, lookup_none_any hmiss]

/-- Witness for C8 (amended): an object payload with only `cartItems`
is rejected with `InvalidRequest` and the store is unchanged. -/
theorem place_order_invalid_request_witness :
    place_order (some (PyValue.dict [("cartItems", PyValue.list [])])) emptyDB =
      (PResp.badRequest "Invalid order data structure", emptyDB) :=
  (place_order_invalid_request emptyDB).2.1 [("cartItems", PyValue.list [])]
    (Or.inr rfl)

/-- C4: the phone-suffix query answers `InvalidRequest` exactly when
the parameter is not a present 3-character string of digit characters,
where digit means Python's `str.isdigit()` classes (`pyIsDigitChar`),
so e.g. `"12"`, `"12a"` and `"1234"` are rejected while both `"123"`
and the fullwidth `"１２３"` pass validation. -/
theorem query_suffix_validation (s : Option String) (db : DB) :
    isBadRequestQ (query_order_by_phone s db) = true ↔
      ¬ ∃ t, s = some t ∧ t.length = 3 ∧ t.toList.all pyIsDigitChar = true := by
  cases s with
  | none =>
    simp only [query_order_by_phone, isBadRequestQ, true_iff]
    rintro ⟨t, ht, -, -⟩
    cases ht
  | some t =>
    by_cases hv : t = "" ∨ t.length ≠ 3 ∨ pyIsdigit t = false
    · rw [query_order_by_phone, if_pos hv]
      simp only [isBadRequestQ, true_iff]
      rintro ⟨t2, ht2, h3, hdig⟩
      injection ht2 with ht2
      subst ht2
      rcases hv with hv | hv | hv
      · subst hv; exact absurd h3 (by decide)
      · exact hv h3
      · have hlen : t.toList.length = 3 := h3
        have hie : t.toList.isEmpty = false := by
          cases hl : t.toList with
          | nil => rw [hl] at hlen; simp at hlen
          | cons c cs => rfl
        rw [pyIsdigit, hie, hdig] at hv
        simp at hv
    · rw [query_order_by_phone, if_neg hv]
      push_neg at hv
      obtain ⟨h1, h2, h3⟩ := hv
      have hdig : pyIsdigit t = true := by
        cases hpd : pyIsdigit t with
        | true => rfl
        | false => exact absurd hpd h3
      have hall : t.toList.all pyIsDigitChar = true := by
        rw [pyIsdigit, Bool.and_eq_true] at hdig
        exact hdig.2
      constructor
      · intro hfalse
        exfalso
        revert hfalse
        cases hie : (db.contacts.filter (fun c => c.contact_phone == t)).isEmpty with
        | true => simp [hie, isBadRequestQ]
        | false =>
          simp only [hie, Bool.false_eq_true, if_false]
          split <;> simp [isBadRequestQ]
      · intro hn
        exact absurd ⟨t, rfl, h2, hall⟩ hn

/-- C3: with a valid 3-digit suffix, the query matches contacts whose
phone field is exactly equal to the suffix; no match yields `NotFound`,
otherwise the response lists precisely the orders whose `contactId`
belongs to a matching contact, sorted by creation time descending. -/
theorem query_by_phone_exact (s : String) (db : DB)
    (h3 : s.length = 3) (hd : s.toList.all Char.isDigit = true) :
    ((∀ c ∈ db.contacts, c.contact_phone ≠ s) →
      query_order_by_phone (some s) db =
        QResp.notFound "查無訂單，請確認手機後三碼是否正確。") ∧
    ((∃ c ∈ db.contacts, c.contact_phone = s) →
      ∃ matched : List Order,
        query_order_by_phone (some s) db = QResp.ok (matched.map (mkQRow db)) ∧
        matched.Perm (db.orders.filter (fun o =>
          db.contacts.any (fun c => c.contact_phone == s && c.id == o.contact_id))) ∧
        List.Sorted (fun a b => b.created_at ≤ a.created_at) matched) := by
  have hne : s ≠ "" := by
    intro h0
    subst h0
    exact absurd h3 (by decide)
  have hdig : pyIsdigit s = true := by
    have hlen : s.toList.length = 3 := h3
    have hie : s.toList.isEmpty = false := by
      cases hl : s.toList with
      | nil => rw [hl] at hlen; simp at hlen
      | cons c cs => rfl
    have hdall : s.toList.all pyIsDigitChar = true := by
      rw [List.all_eq_true] at hd ⊢
      intro c hc
      exact asciiDigit_pyDigit (hd c hc)
    rw [pyIsdigit, hie, hdall]
    rfl
  have hcond : ¬(s = "" ∨ s.length ≠ 3 ∨ pyIsdigit s = false) := by
    rintro (hc | hc | hc)
    · exact hne hc
    · exact hc h3
    · rw [hdig] at hc; cases hc
  constructor
  · intro hnone
    have hfil : db.contacts.filter (fun c => c.contact_phone == s) = [] :=
      List.filter_eq_nil_iff.mpr (fun c hc => by simp [hnone c hc])
    rw [query_order_by_phone, if_neg hcond]
    simp only [hfil, List.isEmpty_nil, if_true]
  · rintro ⟨c0, hc0, hph⟩
    have hmem : c0 ∈ db.contacts.filter (fun c => c.contact_phone == s) :=
      List.mem_filter.mpr ⟨hc0, by simp [hph]⟩
    have hfil : (db.contacts.filter (fun c => c.contact_phone == s)).isEmpty = false := by
      cases hl : db.contacts.filter (fun c => c.contact_phone == s) with
      | nil => rw [hl] at hmem; simp at hmem
      | cons a t => rfl
    have hperm := List.perm_insertionSort (fun a b => b.created_at ≤ a.created_at)
      (db.orders.filter (fun o =>
        ((db.contacts.filter (fun c => c.contact_phone == s)).map
          (fun c => c.id)).contains o.contact_id))
    refine ⟨(db.orders.filter (fun o =>
        ((db.contacts.filter (fun c => c.contact_phone == s)).map
          (fun c => c.id)).contains o.contact_id)).insertionSort
            (fun a b => b.created_at ≤ a.created_at), ?_, ?_, ?_⟩
    · have hok := mapM_ok
        (fun o => match db.contacts.find? (fun c => c.id == o.contact_id) with
          | none => Except.error ()
          | some contact =>
            Except.ok
              ({ order_id := o.order_id,
                 content := renderContent renderItemQ o.items_json,
                 final_amount := o.final_amount,
                 created_at := o.created_at,
                 pickup_type := contact.pickup_type,
                 address := contact.delivery_address } : QRow))
        (mkQRow db)
        ((db.orders.filter (fun o =>
          ((db.contacts.filter (fun c => c.contact_phone == s)).map
            (fun c => c.id)).contains o.contact_id)).insertionSort
              (fun a b => b.created_at ≤ a.created_at))
        (fun o ho => by
          apply find_contact_ok
          have hof := hperm.mem_iff.mp ho
          have hpred := (List.mem_filter.mp hof).2
          rw [contains_ids_eq] at hpred
          obtain ⟨c, hcmem, hcb⟩ := List.any_eq_true.mp hpred
          rw [List.find?_isSome]
          simp only [Bool.and_eq_true] at hcb
          exact ⟨c, hcmem, hcb.2⟩)
      rw [query_order_by_phone, if_neg hcond]
      simp only [hfil, Bool.false_eq_true, if_false, hok]
    · have heq : db.orders.filter (fun o =>
          ((db.contacts.filter (fun c => c.contact_phone == s)).map
            (fun c => c.id)).contains o.contact_id) =
          db.orders.filter (fun o =>
            db.contacts.any (fun c => c.contact_phone == s && c.id == o.contact_id)) :=
        List.filter_congr (fun o _ => contains_ids_eq db.contacts s o.contact_id)
      rw [← heq]
      exact hperm
    · exact List.sorted_insertionSort (fun a b : Order => b.created_at ≤ a.created_at) _

/-- Witness for C3: in a one-order store, the suffix `"123"` matches
the stored contact exactly and returns the order; the suffix `"999"`
matches nothing and yields `NotFound`. -/
theorem query_by_phone_exact_witness :
    (query_order_by_phone (some "999")
        (place_order (some (PyValue.dict wkvs)) emptyDB).2 =
      QResp.notFound "查無訂單，請確認手機後三碼是否正確。") ∧
    ∃ matched : List Order,
      query_order_by_phone (some "123")
          (place_order (some (PyValue.dict wkvs)) emptyDB).2 =
        QResp.ok (matched.map
          (mkQRow (place_order (some (PyValue.dict wkvs)) emptyDB).2)) := by
  constructor
  · exact (query_by_phone_exact "999"
      (place_order (some (PyValue.dict wkvs)) emptyDB).2 rfl rfl).1
      (by decide)
  · obtain ⟨matched, hm, -, -⟩ := (query_by_phone_exact "123"
      (place_order (some (PyValue.dict wkvs)) emptyDB).2 rfl rfl).2
      (by decide)
    exact ⟨matched, hm⟩

/-- C5: listing all orders never fails on a referentially intact store:
it returns one summary per order, sorted by surrogate id descending,
and every order whose stored items blob does not deserialize is shown
with the fixed unparseable-marker content while the rest of the listing
is unaffected. -/
theorem list_all_orders_robust (db : DB) (h : WFDB db = true) :
    ∃ l, get_all_orders db = Except.ok l ∧
      List.Sorted (fun a b => b.order_id ≤ a.order_id) l ∧
      l.length = db.orders.length ∧
      ∀ o ∈ db.orders, o.items_json = none →
        ∃ s2 ∈ l, s2.order_id = o.id ∧ s2.content = unparseableMarker := by
  have hperm := List.perm_insertionSort (fun a b => b.id ≤ a.id) db.orders
  refine ⟨(db.orders.insertionSort (fun a b => b.id ≤ a.id)).map (mkSummary db),
    ?_, ?_, ?_, ?_⟩
  · unfold get_all_orders
    apply mapM_ok
    intro o ho
    apply find_contact_ok_summary
    have hom : o ∈ db.orders := hperm.mem_iff.mp ho
    have hc := List.all_eq_true.mp h o hom
    rw [List.find?_isSome]
    obtain ⟨c, hcm, hcb⟩ := List.any_eq_true.mp hc
    exact ⟨c, hcm, hcb⟩
  · have hs := List.sorted_insertionSort (fun a b => b.id ≤ a.id) db.orders
    exact hs.map _ (fun a b hab => hab)
  · rw [List.length_map, hperm.length_eq]
  · intro o ho hjson
    refine ⟨mkSummary db o, List.mem_map_of_mem _ (hperm.mem_iff.mpr ho), rfl, ?_⟩
    simp [mkSummary, hjson, renderContent]

/-- A concrete contact row. -/
def badContact : ContactInfo :=
  { id := 1, contact_name := "Amy", contact_phone := "123",
    delivery_address := none, pickup_type := "pickup" }

/-- A concrete order row whose stored items blob does not deserialize. -/
def badOrder1 : Order :=
  { id := 1, order_id := 1001, status := "pending", final_amount := 60,
    items_json := none, created_at := 0, contact_id := 1 }

/-- A concrete order row with a valid (empty) items blob. -/
def badOrder2 : Order :=
  { id := 2, order_id := 1002, status := "pending", final_amount := 0,
    items_json := some (PyValue.list []), created_at := 1, contact_id := 1 }

/-- A concrete store holding one order with an undeserializable items
blob and one well-formed order, both pointing at an existing contact. -/
def badDB : DB :=
  { contacts := [badContact], orders := [badOrder1, badOrder2],
    next_contact_id := 2, next_order_pk := 3, clock := 2 }

/-- Witness for C5: the mixed store `badDB` lists both orders, in
descending id order, with the corrupt one showing the marker. -/
theorem list_all_orders_robust_witness :
    ∃ l, get_all_orders badDB = Except.ok l ∧
      List.Sorted (fun a b => b.order_id ≤ a.order_id) l ∧
      l.length = badDB.orders.length ∧
      ∀ o ∈ badDB.orders, o.items_json = none →
        ∃ s2 ∈ l, s2.order_id = o.id ∧ s2.content = unparseableMarker :=
  list_all_orders_robust badDB (by decide)

/-- C9: in both renderers a line item with a missing `quantity` is
displayed with quantity 1 and a line item with a missing `name` gets a
fixed placeholder name, whereas the amount computation counts a missing
`quantity` as 0 (so the item contributes nothing to `finalAmount`). -/
theorem display_defaults :
    (∀ (kvs : List (String × PyValue)) (nm oStr : String),
      kvs.lookup "quantity" = none →
      kvs.lookup "name" = some (PyValue.str nm) →
      kvs.lookup "options" = some (PyValue.str oStr) →
      renderItemAll (PyValue.dict kvs) =
        Except.ok (nm ++ " (" ++ optionsHead oStr ++ ") x " ++ "1") ∧
      renderItemQ (PyValue.dict kvs) = Except.ok (nm ++ " x " ++ "1")) ∧
    (∀ (kvs : List (String × PyValue)) (oStr : String),
      kvs.lookup "name" = none →
      kvs.lookup "options" = some (PyValue.str oStr) →
      renderItemAll (PyValue.dict kvs) =
        Except.ok ("未知飲品" ++ " (" ++ optionsHead oStr ++ ") x " ++
          pyStr (dGetD kvs "quantity" (PyValue.int 1))) ∧
      renderItemQ (PyValue.dict kvs) =
        Except.ok ("飲品" ++ " x " ++
          pyStr (dGetD kvs "quantity" (PyValue.int 1)))) ∧
    (∀ kvs : List (String × PyValue),
      kvs.lookup "quantity" = none →
      wfField kvs "price" isInt = true →
      itemAmount (PyValue.dict kvs) = Except.ok 0) := by
  refine ⟨?_, ?_, ?_⟩
  · intro kvs nm oStr hq hn ho
    constructor
    · simp [renderItemAll, dGetD, hq, hn, ho, pyStr, pyRepr]
      congr 1
    · simp [renderItemQ, dGetD, hq, hn, pyStr, pyRepr]
      congr 1
  · intro kvs oStr hn ho
    constructor
    · simp [renderItemAll, dGetD, hn, ho, pyStr, pyRepr]
    · simp [renderItemQ, dGetD, hn, pyStr, pyRepr]
  · intro kvs hq hp
    rcases wfField_cases_int hp with hlp | ⟨p, hlp⟩ <;>
      simp [itemAmount, dGetD, hq, hlp, toNum]

/-- Witness for C9: a concrete item with price 60 and neither name nor
quantity renders as quantity 1 with the placeholder names, yet
contributes 0 to the amount. -/
theorem display_defaults_witness :
    renderItemAll (PyValue.dict [("price", PyValue.int 60),
        ("options", PyValue.str "")]) =
      Except.ok ("未知飲品" ++ " (" ++ optionsHead "" ++ ") x " ++
        pyStr (dGetD [("price", PyValue.int 60), ("options", PyValue.str "")]
          "quantity" (PyValue.int 1))) ∧
    itemAmount (PyValue.dict [("price", PyValue.int 60),
        ("options", PyValue.str "")]) = Except.ok 0 := by
  constructor
  · exact (display_defaults.2.1 [("price", PyValue.int 60),
      ("options", PyValue.str "")] "" rfl rfl).1
  · exact display_defaults.2.2 [("price", PyValue.int 60),
      ("options", PyValue.str "")] rfl rfl

end App
